import Mathlib

/-
Verification of the embedly-python client (embedly/client.py) against its
natural-language specification.

The development shallowly embeds the client: Python scalar/collection values
become the inductive PyVal; the HTTP transport and the JSON parser are
external collaborators (spec section 1), so an HTTP response is modelled as
its status string, raw body bytes, and the optional parsed JSON value; regex
patterns fetched from the discovery endpoint are modelled as
RegularExpression Char with the standard language semantics, with
re.match/re.search distinguished as anchored-at-start versus anywhere.
Fallible Python code (raise) is modelled with Except.
-/

namespace Embedly

/-- Shorthand for the pattern type used by the service registry: a regular
expression over characters, with Mathlib's language semantics standing in for
the Python re module. -/
abbrev RE := RegularExpression Char

/-- PyVal models the Python values that flow through client.py: strings,
ints, bools, None, lists, dicts (insertion-ordered association lists with
string keys, as produced by json.loads for JSON objects) and bytes (the raw
HTTP body; modelled as a string of its characters). -/
inductive PyVal where
  | str (s : String)
  | int (n : Int)
  | bool (b : Bool)
  | none
  | list (xs : List PyVal)
  | dict (kvs : List (String × PyVal))
  | bytes (s : String)

/-- Python truthiness (bool(v)) for the modelled values: empty strings,
zero, False, None and empty collections are falsy. -/
def PyVal.truthy : PyVal → Bool
  | .str s => s != ""
  | .int n => n != 0
  | .bool b => b
  | .none => false
  | .list xs => !xs.isEmpty
  | .dict kvs => !kvs.isEmpty
  | .bytes s => s != ""

/-- Python str(v) as used by urllib.parse.urlencode on option values. The
spec (section 3) restricts option mappings to string-to-scalar, so the
renderings of compound values are never exercised and are left as a fixed
placeholder. -/
def PyVal.pyStr : PyVal → String
  | .str s => s
  | .int n => toString n
  | .bool true => "True"
  | .bool false => "False"
  | .none => "None"
  | .list _ => "<unmodelled-compound>"
  | .dict _ => "<unmodelled-compound>"
  | .bytes s => s

/-- Exceptions raised by the embedded client code. The first three are the
ValueError cases the spec calls InvalidArgument; the rest model TypeError,
AttributeError, json.JSONDecodeError and int() conversion failure. -/
inductive PyError where
  | noUrls
  | tooManyUrls (n : Nat)
  | noKey
  | jsonDecodeError
  | intConvError
  | typeError
  | attributeError
deriving DecidableEq

/-- InvalidArgument in the spec's taxonomy (section 7): the ValueError
raised locally by input validation before any network call. -/
def PyError.isInvalidArgument : PyError → Bool
  | .noUrls => true
  | .tooManyUrls _ => true
  | .noKey => true
  | _ => false

/-- Keyword options passed to the request methods: an insertion-ordered
association list, as a Python kwargs dict. -/
abbrev Kwargs := List (String × PyVal)

/-- Model of dict.get(k, dflt) on a kwargs dict. -/
def pyGet (kv : Kwargs) (k : String) (dflt : PyVal) : PyVal :=
  (kv.lookup k).getD dflt

/-- Model of dict assignment kv[k] = v: replace the value in place when the
key is present, otherwise append the new pair. -/
def pySet (kv : Kwargs) (k : String) (v : PyVal) : Kwargs :=
  if (kv.lookup k).isSome then
    kv.map (fun p => if p.1 = k then (k, v) else p)
  else
    kv ++ [(k, v)]

/-- Model of d[k] = v on a PyVal: only dicts support string-key assignment;
lists, strings and scalars raise TypeError (client.py line 139 performs this
assignment on whatever json.loads returned). -/
def PyVal.setItem : PyVal → String → PyVal → Except PyError PyVal
  | .dict kvs, k, v => .ok (.dict (pySet kvs k v))
  | _, _, _ => .error .typeError

/-- Model of d.get(k) (default None) on a PyVal: dicts look the key up,
anything else raises AttributeError (client.py line 149 calls .get on
whatever json.loads returned for the error body). -/
def PyVal.dictGet : PyVal → String → Except PyError PyVal
  | .dict kvs, k => .ok ((kvs.lookup k).getD .none)
  | _, _ => .error .attributeError

/-- Model of Python iteration over a value, as performed by map() on the
response data (client.py line 153): lists yield their elements, dicts yield
their keys in insertion order, strings yield their characters, bytes yield
byte integers, and scalars raise TypeError. -/
def PyVal.toIter : PyVal → Except PyError (List PyVal)
  | .list xs => .ok xs
  | .dict kvs => .ok (kvs.map fun p => .str p.1)
  | .str s => .ok (s.data.map fun c => .str c.toString)
  | .bytes s => .ok (s.data.map fun c => .int c.toNat)
  | _ => .error .typeError

/-- Hexadecimal digit (uppercase) for percent-encoding. -/
def hexDigit (n : Nat) : Char :=
  if n < 10 then Char.ofNat (48 + n) else Char.ofNat (55 + n)

/-- Percent-encoding of one byte, as urllib produces it. -/
def percentByte (b : Nat) : String :=
  String.mk ['%', hexDigit (b / 16), hexDigit (b % 16)]

/-- UTF-8 encoding of one character, byte values as naturals. -/
def utf8Bytes (c : Char) : List Nat :=
  let n := c.toNat
  if n < 128 then [n]
  else if n < 2048 then [192 + n / 64, 128 + n % 64]
  else if n < 65536 then [224 + n / 4096, 128 + (n / 64) % 64, 128 + n % 64]
  else [240 + n / 262144, 128 + (n / 4096) % 64, 128 + (n / 64) % 64,
        128 + n % 64]

/-- Characters urllib.parse.quote never encodes (ASCII letters, digits and
the four unreserved marks). -/
def isAlwaysSafe (c : Char) : Bool :=
  c.isAlpha || c.isDigit || c == '_' || c == '.' || c == '-' || c == '~'

/-- Model of urllib.parse.quote with its default safe set, which keeps the
slash unencoded; used on each URL (client.py lines 122 and 124). -/
def quote (s : String) : String :=
  String.join (s.data.map fun c =>
    if isAlwaysSafe c || c == '/' then c.toString
    else String.join ((utf8Bytes c).map percentByte))

/-- Model of urllib.parse.quote_plus (empty safe set, space becomes plus),
which urlencode applies to keys and stringified values. -/
def quotePlus (s : String) : String :=
  String.join (s.data.map fun c =>
    if isAlwaysSafe c then c.toString
    else if c == ' ' then "+"
    else String.join ((utf8Bytes c).map percentByte))

/-- Model of urllib.parse.urlencode over the kwargs dict (client.py line
119): key=value pairs in insertion order, joined with ampersands, each side
quote_plus-encoded after str(). -/
def urlencode (kv : Kwargs) : String :=
  String.intercalate "&" (kv.map fun p =>
    quotePlus p.1 ++ "=" ++ quotePlus (PyVal.pyStr p.2))

/-- Single URL string or list of URL strings, the url_or_urls argument; the
isinstance(url_or_urls, list) test of client.py line 102 becomes the
constructor tag. -/
inductive UrlOrUrls where
  | single (url : String)
  | multi (urls : List String)

/-- Python truthiness of url_or_urls (client.py line 97): empty string and
empty list are falsy. -/
def UrlOrUrls.isTruthy : UrlOrUrls → Bool
  | .single u => u != ""
  | .multi us => !us.isEmpty

/-- The multi flag of client.py line 102. -/
def UrlOrUrls.isMulti : UrlOrUrls → Bool
  | .single _ => false
  | .multi _ => true

/-- Length of the URL list; only consulted when the input is a list
(client.py line 105). -/
def UrlOrUrls.listLen : UrlOrUrls → Nat
  | .single _ => 0
  | .multi us => us.length

/-- Accumulator loop for decimal digit parsing. -/
def digitsToNatAux : List Char → Nat → Option Nat
  | [], acc => Option.some acc
  | c :: cs, acc =>
    if c.isDigit then digitsToNatAux cs (acc * 10 + (c.toNat - 48))
    else Option.none

/-- Model of Python int() on a string (client.py line 148 converts the
status string): an optional sign followed by at least one decimal digit;
anything else fails the conversion. -/
def pyIntOfStr (s : String) : Option Int :=
  match s.data with
  | [] => Option.none
  | '-' :: c :: cs => (digitsToNatAux (c :: cs) 0).map fun n => -(n : Int)
  | c :: cs => (digitsToNatAux (c :: cs) 0).map fun n => (n : Int)

/-- An HTTP response as the client observes it: the status (httplib2 exposes
it as a string, compared against the literal "200"), the raw body bytes, and
the result of json.loads on the decoded body when that parse succeeds (the
JSON parser is an external collaborator, spec section 1). -/
structure HttpResponse where
  status : String
  body : String
  parsed : Option PyVal

/-- Modelled from the spec: the repository's models.Url result holder
(embedly/models.py, imported by client.py but not among the provided
sources) stores the parsed data mapping, the method name that produced it
and the originating URL — the ResultRecord of spec section 3. -/
structure Url where
  data : PyVal
  method : String
  original_url : String

/-- Result of the shared request method: one Url record for a single call,
a list of records for a batched call. -/
inductive GetResult where
  | one (u : Url)
  | many (us : List Url)

/-- Response-normalization half of the _get method of client.py (lines 135
to 156): on status "200" parse the body (raising on parse failure) and,
when the raw option is truthy, assign the raw content under the raw key; on
any other status build the synthetic error dict, swallowing a body parse
failure but propagating a .get failure on a non-dict body; finally either
zip a batched input with an iteration over the data, or wrap the single
result. -/
def handleResponse (method : String) (url_or_urls : UrlOrUrls) (kwargs2 : Kwargs)
    (resp : HttpResponse) : Except PyError GetResult :=
  let dataE : Except PyError PyVal :=
    if resp.status == "200" then
      match resp.parsed with
      | Option.none => .error .jsonDecodeError
      | Option.some d =>
        if (pyGet kwargs2 "raw" (.bool false)).truthy then
          d.setItem "raw" (.bytes resp.body)
        else .ok d
    else
      match pyIntOfStr resp.status with
      | Option.none => .error .intConvError
      | Option.some n =>
        let respBody := resp.parsed.getD (.dict [])
        (respBody.dictGet "error_message").map fun msg =>
          .dict [("type", .str "error"), ("error", .bool true),
                 ("error_code", .int n), ("error_message", msg)]
  dataE.bind fun data =>
    match url_or_urls with
    | .multi us =>
      data.toIter.map fun items =>
        .many (List.zipWith (fun u d => ⟨d, method, u⟩) us items)
    | .single u => .ok (.one ⟨data, method, u⟩)

/-- The shared request method _get of client.py (lines 93 to 156). Returns
the list of HTTP request targets actually dispatched (empty when validation
fails before the network call: the transport is external, so the call is
represented by its request URL) together with the call's outcome. The
response the transport would deliver is passed in as resp. -/
def _get (version : Nat) (method : String) (url_or_urls : UrlOrUrls)
    (kwargs : Kwargs) (selfKey : PyVal) (resp : HttpResponse) :
    List String × Except PyError GetResult :=
  if !url_or_urls.isTruthy then ([], .error .noUrls)
  else if url_or_urls.isMulti && decide (url_or_urls.listLen > 20) then
    ([], .error (.tooManyUrls url_or_urls.listLen))
  else
    let key := pyGet kwargs "key" selfKey
    if !key.truthy then ([], .error .noKey)
    else
      let kwargs2 := pySet kwargs "key" key
      let query := urlencode kwargs2 ++
        (match url_or_urls with
         | .multi us => "&urls=" ++ String.intercalate "," (us.map quote) ++ "&"
         | .single u => "&url=" ++ quote u)
      let reqUrl := "http://api.embed.ly/" ++ toString version ++ "/" ++
        method ++ "?" ++ query
      ([reqUrl], handleResponse method url_or_urls kwargs2 resp)

/-- Public operation oembed (client.py line 158): version 1. -/
def oembed (url_or_urls : UrlOrUrls) (kwargs : Kwargs) (selfKey : PyVal)
    (resp : HttpResponse) : List String × Except PyError GetResult :=
  _get 1 "oembed" url_or_urls kwargs selfKey resp

/-- Public operation preview (client.py line 164): version 1. -/
def preview (url_or_urls : UrlOrUrls) (kwargs : Kwargs) (selfKey : PyVal)
    (resp : HttpResponse) : List String × Except PyError GetResult :=
  _get 1 "preview" url_or_urls kwargs selfKey resp

/-- Public operation objectify (client.py line 170): version 2. -/
def objectify (url_or_urls : UrlOrUrls) (kwargs : Kwargs) (selfKey : PyVal)
    (resp : HttpResponse) : List String × Except PyError GetResult :=
  _get 2 "objectify" url_or_urls kwargs selfKey resp

/-- Public operation extract (client.py line 176): version 1. -/
def extract (url_or_urls : UrlOrUrls) (kwargs : Kwargs) (selfKey : PyVal)
    (resp : HttpResponse) : List String × Except PyError GetResult :=
  _get 1 "extract" url_or_urls kwargs selfKey resp

/-- One provider object from the discovery endpoint's JSON array: its
optional regex field holds an ordered list of URL patterns, modelled
directly as regular expressions (the textual pattern syntax is parsed by
the external re module). -/
structure ProviderEntry where
  regex : Option (List RE)

/-- The registry state held by an Embedly client instance: the cached
services list and the compiled combined pattern (client.py lines 44 and
45); regexC models the _regex attribute, None at construction. -/
structure ClientState where
  services : List ProviderEntry
  regexC : Option RE

/-- Client state right after construction (client.py __init__): no cached
services, no compiled pattern. -/
def initState : ClientState := ⟨[], Option.none⟩

/-- Joining a list of patterns with the alternation bar, as the textual
join with the pipe character does (client.py lines 70 and 72): the join of
the empty list is the empty pattern, which matches the empty string. -/
def altJoin : List RE → RE
  | [] => RegularExpression.epsilon
  | [r] => r
  | r :: rs => r + altJoin rs

/-- The combined pattern compiled from the fetched services (client.py
lines 68 to 72): each provider's patterns joined by alternation, then all
providers joined by alternation. -/
def compileServices (svcs : List ProviderEntry) : RE :=
  altJoin (svcs.map fun p => altJoin (p.regex.getD []))

/-- The discovery endpoint's HTTP response: status string and, when the
body parses, the JSON array of provider objects. -/
structure ServicesResponse where
  status : String
  parsed : Option (List ProviderEntry)

/-- The get_services method (client.py lines 47 to 74): return the cached
list when it is nonempty; otherwise dispatch one discovery request (the
returned counter counts requests issued: zero on a cache hit, one
otherwise). On status "200" parse the body (raising on parse failure),
cache it and compile the combined pattern; on any other status return the
previous cache unchanged. -/
def get_services (st : ClientState) (resp : ServicesResponse) :
    Except PyError (ClientState × List ProviderEntry × Nat) :=
  if !st.services.isEmpty then .ok (st, st.services, 0)
  else if resp.status == "200" then
    match resp.parsed with
    | Option.none => .error .jsonDecodeError
    | Option.some data => .ok (⟨data, Option.some (compileServices data)⟩, data, 1)
  else .ok (st, st.services, 1)

/-- The regex property (client.py lines 82 to 91): when _regex is unset,
call get_services, then return whatever _regex holds afterwards (possibly
still unset when the fetch did not succeed). -/
def regexProp (st : ClientState) (resp : ServicesResponse) :
    Except PyError (ClientState × Option RE) :=
  match st.regexC with
  | Option.some r => .ok (st, Option.some r)
  | Option.none => (get_services st resp).map fun x => (x.1, x.1.regexC)

/-- Model of pattern.match(url) being not None for a compiled Python
pattern: re.match anchors at the start of the string and succeeds when any
of its positions consumes some prefix, so the test is whether some prefix
of the URL belongs to the pattern's language. -/
def reMatchB (r : RE) (s : String) : Bool :=
  (List.range (s.length + 1)).any fun n => r.rmatch (s.data.take n)

/-- The is_supported method (client.py lines 76 to 80): evaluate the regex
property, then call .match on it — raising AttributeError when the
property yielded None. -/
def is_supported (st : ClientState) (resp : ServicesResponse) (url : String) :
    Except PyError Bool :=
  (regexProp st resp).bind fun x =>
    match x.2 with
    | Option.some r => .ok (reMatchB r url)
    | Option.none => .error .attributeError

/-- Declarative form of re.match success: the pattern matches at the start
of the string, consuming some prefix. -/
def MatchesAtStart (r : RE) (s : String) : Prop :=
  ∃ p t, s.data = p ++ t ∧ p ∈ r.matches'

/-- Declarative form of re.search success: the pattern matches somewhere
inside the string (the substring semantics the spec ascribes to
is_supported). -/
def MatchesSomewhere (r : RE) (s : String) : Prop :=
  ∃ u p t, s.data = u ++ p ++ t ∧ p ∈ r.matches'

/-- Two consecutive get_services calls on one client, propagating state and
totalling the discovery requests issued. -/
def get_services_twice (st : ClientState) (resp1 resp2 : ServicesResponse) :
    Except PyError (ClientState × List ProviderEntry × Nat) :=
  (get_services st resp1).bind fun x =>
    (get_services x.1 resp2).map fun y => (y.1, y.2.1, x.2.2 + y.2.2)

/-- Specification-side description of the dispatched request target, written
from the spec's words (sections 4.2 and 6): scheme and host, version,
method, then the URL-encoded options with the resolved key stored under
"key", followed by the urls or url parameter. It is the comparison point
for the refinement statement of claim C6. -/
def specRequestTarget (version : Nat) (method : String) (u : UrlOrUrls)
    (options : Kwargs) (resolvedKey : PyVal) : String :=
  "http://api.embed.ly/" ++ toString version ++ "/" ++ method ++ "?" ++
    urlencode (pySet options "key" resolvedKey) ++
    (match u with
     | .multi us => "&urls=" ++ String.intercalate "," (us.map quote) ++ "&"
     | .single s => "&url=" ++ quote s)

/-- A one-provider discovery payload whose single pattern is the literal
character b, used to exercise the anchoring semantics of is_supported. -/
def svcB : List ProviderEntry := [⟨Option.some [RegularExpression.char 'b']⟩]

/-- Client state after a successful discovery fetch of svcB, with the
combined pattern compiled. -/
def stB : ClientState := ⟨svcB, Option.some (compileServices svcB)⟩

/-- Looking a key up is unchanged by the in-place update of a different key. -/
theorem lookup_map_set (kv : Kwargs) (k k2 : String) (v : PyVal) (h : k2 ≠ k) :
    (kv.map fun p => if p.1 = k then (k, v) else p).lookup k2 = kv.lookup k2 := by
  induction kv with
  | nil => rfl
  | cons p kv ih =>
    rcases p with ⟨pk, pv⟩
    simp only [List.map_cons]
    by_cases hp : pk = k
    · subst hp
      simp only [if_pos rfl]
      have hk2 : (k2 == pk) = false := beq_eq_false_iff_ne.mpr h
      simp [List.lookup, hk2, ih]
    · simp only [if_neg hp]
      cases hk : (k2 == pk) <;> simp [List.lookup, hk, ih]

/-- Looking a key up is unchanged by appending a pair with a different key. -/
theorem lookup_append_ne (kv : Kwargs) (k k2 : String) (v : PyVal) (h : k2 ≠ k) :
    (kv ++ [(k, v)]).lookup k2 = kv.lookup k2 := by
  induction kv with
  | nil =>
    have hk2 : (k2 == k) = false := beq_eq_false_iff_ne.mpr h
    simp [List.lookup, hk2]
  | cons p kv ih =>
    simp only [List.cons_append, List.lookup]
    by_cases hk2 : k2 == p.1
    · simp [hk2]
    · simp [hk2, ih]

/-- Dict assignment of one key leaves lookups of other keys unchanged. -/
theorem lookup_pySet_ne (kv : Kwargs) (k k2 : String) (v : PyVal) (h : k2 ≠ k) :
    (pySet kv k v).lookup k2 = kv.lookup k2 := by
  unfold pySet
  by_cases hs : (kv.lookup k).isSome
  · simp only [hs, if_true]
    exact lookup_map_set kv k k2 v h
  · simp only [hs, Bool.false_eq_true, if_false]
    exact lookup_append_ne kv k k2 v h

/-- Correctness of the re.match model: the boolean matcher succeeds exactly
when some prefix of the string belongs to the pattern's language. -/
theorem reMatchB_iff (r : RE) (s : String) :
    reMatchB r s = true ↔ MatchesAtStart r s := by
  unfold reMatchB MatchesAtStart
  rw [List.any_eq_true]
  constructor
  · rintro ⟨n, _, hm⟩
    exact ⟨s.data.take n, s.data.drop n, (List.take_append_drop n s.data).symm,
           (RegularExpression.rmatch_iff_matches' r _).mp hm⟩
  · rintro ⟨p, t, hs, hp⟩
    refine ⟨p.length, ?_, ?_⟩
    · rw [List.mem_range]
      have hl : s.length = s.data.length := rfl
      rw [hl, hs, List.length_append]
      omega
    · have ht : s.data.take p.length = p := by
        rw [hs]
        exact List.take_left p t
      rw [ht]
      exact (RegularExpression.rmatch_iff_matches' r p).mpr hp

/-- Claim C2 evaluated on the code: a batched call of five URLs receiving a
404 builds a single error dict and then zips the URL list against an
iteration over that dict, which yields its four key strings — so only four
records come back and each record's data is a bare key string, not the
synthetic error mapping. -/
theorem batched_error_zips_dict_keys :
    (_get 1 "oembed" (.multi ["a", "b", "c", "d", "e"]) [] (.str "k")
        ⟨"404", "nf", Option.none⟩).2 =
      .ok (.many [⟨.str "type", "oembed", "a"⟩, ⟨.str "error", "oembed", "b"⟩,
                  ⟨.str "error_code", "oembed", "c"⟩,
                  ⟨.str "error_message", "oembed", "d"⟩]) := rfl

/-- Claim C7 evaluated on the code: with the raw option set and a 200
response, a single-URL call attaches the raw bytes under the raw key, but a
batched call applies the string-key assignment to the parsed JSON array and
raises TypeError instead of returning records. -/
theorem raw_single_attaches_batched_raises :
    (_get 1 "oembed" (.single "u") [("raw", .bool true)] (.str "k")
        ⟨"200", "BYTES", Option.some (.dict [("title", .str "t")])⟩).2 =
      .ok (.one ⟨.dict [("title", .str "t"), ("raw", .bytes "BYTES")],
                 "oembed", "u"⟩) ∧
    (_get 1 "oembed" (.multi ["u1"]) [("raw", .bool true)] (.str "k")
        ⟨"200", "BYTES", Option.some (.list [.dict [("title", .str "t")]])⟩).2 =
      .error .typeError :=
  ⟨rfl, rfl⟩

/-- Claim C8: on any non-200 discovery status, get_services does not raise,
returns exactly the previously cached provider list, and leaves the whole
client state — in particular the compiled pattern — unchanged; one request
is issued only when the cache was empty. -/
theorem services_non200_returns_cache (st : ClientState) (resp : ServicesResponse)
    (h : resp.status ≠ "200") :
    get_services st resp =
      .ok (st, st.services, if st.services.isEmpty then 1 else 0) := by
  unfold get_services
  have hb : (resp.status == "200") = false := beq_eq_false_iff_ne.mpr h
  by_cases he : st.services.isEmpty <;> simp [he, hb]

/-- Witness for claim C8 at a concrete 503 response on a fresh client. -/
theorem services_non200_returns_cache_witness :
    get_services initState ⟨"503", Option.none⟩ = .ok (initState, [], 1) :=
  services_non200_returns_cache initState ⟨"503", Option.none⟩ (by decide)

/-- Claim C10: when the on-demand discovery fetch fails (non-200), the
compiled pattern stays unset and is_supported raises (the match call on the
unset pattern) for every URL, instead of returning false. -/
theorem is_supported_unset_pattern_raises (resp : ServicesResponse) (url : String)
    (h : resp.status ≠ "200") :
    is_supported initState resp url = .error .attributeError := by
  unfold is_supported regexProp initState get_services
  have hb : (resp.status == "200") = false := beq_eq_false_iff_ne.mpr h
  simp [hb, Except.map, Except.bind]

/-- Witness for claim C10 at a concrete failing discovery response. -/
theorem is_supported_unset_pattern_raises_witness :
    is_supported initState ⟨"503", Option.none⟩ "http://twitter.com/x" =
      .error .attributeError :=
  is_supported_unset_pattern_raises ⟨"503", Option.none⟩ "http://twitter.com/x"
    (by decide)

/-- Claim C9 refuted on the code: a first discovery call that succeeds (200)
with an empty provider array is not treated as populated, so a second call
fetches again — two requests despite no intervening failure, where the
claim promises exactly one. -/
theorem services_twice_empty_refetches :
    get_services_twice initState ⟨"200", Option.some []⟩ ⟨"200", Option.some []⟩ =
      .ok (⟨[], Option.some (compileServices [])⟩, [], 2) ∧ (2 : Nat) ≠ 1 :=
  ⟨rfl, by decide⟩

/-- Claim C9 as amended: when the first call's fetch succeeds with a
nonempty provider list, two consecutive get_services calls issue exactly one
discovery request, the second being a cache hit that returns the stored
list whatever the second response would have been. -/
theorem services_cached_after_nonempty_fetch
    (ps : List ProviderEntry) (resp1 resp2 : ServicesResponse)
    (h1 : resp1.status = "200") (hp : resp1.parsed = Option.some ps)
    (hne : ps ≠ []) :
    get_services_twice initState resp1 resp2 =
      .ok (⟨ps, Option.some (compileServices ps)⟩, ps, 1) := by
  unfold get_services_twice get_services initState
  simp [h1, hp, hne, Except.map, Except.bind]

/-- Witness for the amended claim C9 at a concrete one-provider fetch. -/
theorem services_cached_after_nonempty_fetch_witness :
    get_services_twice initState ⟨"200", Option.some [⟨Option.none⟩]⟩
        ⟨"500", Option.none⟩ =
      .ok (⟨[⟨Option.none⟩], Option.some (compileServices [⟨Option.none⟩])⟩,
           [⟨Option.none⟩], 1) :=
  services_cached_after_nonempty_fetch [⟨Option.none⟩] _ _ rfl rfl
    (List.cons_ne_nil _ _)

/-- Claim C3 refuted on the code: with the single-character pattern b
compiled, the URL "ab" contains a match of the pattern somewhere inside,
yet is_supported answers false, because re.match anchors at the start of
the string. -/
theorem is_supported_not_substring :
    ¬ ((is_supported stB ⟨"500", Option.none⟩ "ab" = .ok true) ↔
       MatchesSomewhere (compileServices svcB) "ab") := by
  intro hiff
  have hsub : MatchesSomewhere (compileServices svcB) "ab" := by
    refine ⟨['a'], ['b'], [], rfl, ?_⟩
    show _ ∈ (RegularExpression.char 'b').matches'
    rw [RegularExpression.matches'_char]
    exact Set.mem_singleton _
  have h2 := hiff.mpr hsub
  have h3 : is_supported stB ⟨"500", Option.none⟩ "ab" = .ok false := rfl
  rw [h3] at h2
  simp at h2

/-- Claim C3 as amended: once the combined pattern has been compiled,
is_supported returns true exactly when the pattern matches at the start of
the URL, consuming some prefix — the anchored re.match semantics, not a
substring search. -/
theorem is_supported_anchored_at_start
    (st : ClientState) (r : RE) (resp : ServicesResponse) (url : String)
    (h : st.regexC = Option.some r) :
    (is_supported st resp url = .ok true) ↔ MatchesAtStart r url := by
  unfold is_supported regexProp
  rw [h]
  show (Except.ok (reMatchB r url) = Except.ok true) ↔ MatchesAtStart r url
  constructor
  · intro he
    exact (reMatchB_iff r url).mp (Except.ok.inj he)
  · intro hm
    rw [(reMatchB_iff r url).mpr hm]

/-- Witness for the amended claim C3: on the compiled single-character
pattern b, matching the URL "ba" is equivalent to a match at its start. -/
theorem is_supported_anchored_at_start_witness :
    (is_supported stB ⟨"500", Option.none⟩ "ba" = .ok true) ↔
      MatchesAtStart (compileServices svcB) "ba" :=
  is_supported_anchored_at_start stB (compileServices svcB)
    ⟨"500", Option.none⟩ "ba" rfl

/-- Unfolding of the shared request method once all three validations pass:
the dispatched request target is exactly the spec-described one, and the
outcome is the normalization of the response against the key-updated
options. -/
theorem _get_unfold_valid
    (version : Nat) (method : String) (u : UrlOrUrls) (kwargs : Kwargs)
    (selfKey : PyVal) (resp : HttpResponse)
    (h1 : u.isTruthy = true) (h2 : ∀ us, u = .multi us → us.length ≤ 20)
    (hkey : (pyGet kwargs "key" selfKey).truthy = true) :
    _get version method u kwargs selfKey resp =
      ([specRequestTarget version method u kwargs (pyGet kwargs "key" selfKey)],
       handleResponse method u (pySet kwargs "key" (pyGet kwargs "key" selfKey))
         resp) := by
  unfold _get specRequestTarget
  have hm : (u.isMulti && decide (u.listLen > 20)) = false := by
    cases u with
    | single s => rfl
    | multi us =>
      have hle := h2 us rfl
      simp [UrlOrUrls.isMulti, UrlOrUrls.listLen]
      omega
  simp [h1, hm, hkey, String.append_assoc]

/-- Bounds-explicit form of the zipWith indexing lemma. -/
theorem getElem_zipWith_exp {α β γ : Type} (f : α → β → γ) (l1 : List α)
    (l2 : List β) (i : Nat) (h1 : i < l1.length) (h2 : i < l2.length)
    (h : i < (List.zipWith f l1 l2).length) :
    (List.zipWith f l1 l2)[i] = f l1[i] l2[i] :=
  List.getElem_zipWith

/-- Claim C1 refuted on the code: a batched call meeting every condition of
the claim — two URLs (1 ≤ N ≤ 20), a truthy key, a 200 response whose JSON
body is an array of length two — but carrying the raw option raises
TypeError at the string-key assignment on the parsed array (client.py line
139), so no records at all are returned, where the claim promises exactly
N positionally zipped records for every such batched call. -/
theorem batched_200_raw_no_records :
    (_get 1 "oembed" (.multi ["a", "b"]) [("raw", .bool true)] (.str "k")
        ⟨"200", "BYTES", Option.some (.list [.dict [], .dict []])⟩).2 =
      .error .typeError ∧
    ¬ ∃ recs : List Url,
      (_get 1 "oembed" (.multi ["a", "b"]) [("raw", .bool true)] (.str "k")
          ⟨"200", "BYTES", Option.some (.list [.dict [], .dict []])⟩).2 =
        .ok (.many recs) := by
  refine ⟨rfl, ?_⟩
  rintro ⟨recs, h⟩
  rw [show (_get 1 "oembed" (.multi ["a", "b"]) [("raw", .bool true)]
      (.str "k") ⟨"200", "BYTES", Option.some (.list [.dict [], .dict []])⟩).2 =
      (Except.error PyError.typeError : Except PyError GetResult) from rfl] at h
  exact Except.noConfusion h

/-- Claim C1 as amended: a batched call of N URLs (nonempty, at most 20)
with a truthy resolved key and the raw option unset, receiving a 200 whose
JSON body is an array of the same length N, returns exactly N records
zipped positionally: record i carries input URL i and body element i. -/
theorem batched_200_positional_zip
    (version : Nat) (method : String) (urls : List String) (kwargs : Kwargs)
    (selfKey : PyVal) (resp : HttpResponse) (bs : List PyVal)
    (hne : urls ≠ []) (hlen : urls.length ≤ 20)
    (hkey : (pyGet kwargs "key" selfKey).truthy = true)
    (hraw : (pyGet kwargs "raw" (.bool false)).truthy = false)
    (hst : resp.status = "200") (hp : resp.parsed = Option.some (.list bs))
    (hN : bs.length = urls.length) :
    ∃ recs : List Url,
      (_get version method (.multi urls) kwargs selfKey resp).2 =
        .ok (.many recs) ∧
      recs.length = urls.length ∧
      ∀ i, (hi : i < recs.length) → (hu : i < urls.length) →
        (hb : i < bs.length) →
        recs[i].original_url = urls[i] ∧ recs[i].data = bs[i] := by
  have h1 : (UrlOrUrls.multi urls).isTruthy = true := by
    simp [UrlOrUrls.isTruthy, hne]
  have h2 : ∀ us, UrlOrUrls.multi urls = UrlOrUrls.multi us → us.length ≤ 20 := by
    intro us h
    cases h
    exact hlen
  rw [_get_unfold_valid version method (.multi urls) kwargs selfKey resp h1 h2 hkey]
  refine ⟨List.zipWith (fun u d => ⟨d, method, u⟩) urls bs, ?_, ?_, ?_⟩
  · show handleResponse method (.multi urls) _ resp = _
    unfold handleResponse
    have hraw2 : (pyGet (pySet kwargs "key" (pyGet kwargs "key" selfKey)) "raw"
        (.bool false)).truthy = false := by
      unfold pyGet
      rw [lookup_pySet_ne kwargs "key" "raw" ((kwargs.lookup "key").getD selfKey)
        (by decide)]
      simpa [pyGet] using hraw
    simp [hst, hp, hraw2, PyVal.toIter, Except.bind, Except.map]
  · simp [List.length_zipWith, hN]
  · intro i hi hu hb
    constructor
    · rw [getElem_zipWith_exp (fun u d => (⟨d, method, u⟩ : Url)) urls bs i hu hb hi]
    · rw [getElem_zipWith_exp (fun u d => (⟨d, method, u⟩ : Url)) urls bs i hu hb hi]

/-- Witness for claim C1 on a concrete two-URL batch with a 200 array
response of matching length. -/
theorem batched_200_positional_zip_witness :
    ∃ recs : List Url,
      (_get 1 "oembed" (.multi ["a", "b"]) [] (.str "k")
          ⟨"200", "", Option.some (.list [.dict [], .str "x"])⟩).2 =
        .ok (.many recs) ∧
      recs.length = (["a", "b"] : List String).length ∧
      ∀ i, (hi : i < recs.length) → (hu : i < (["a", "b"] : List String).length) →
        (hb : i < ([PyVal.dict [], PyVal.str "x"] : List PyVal).length) →
        recs[i].original_url = (["a", "b"] : List String)[i] ∧
        recs[i].data = ([PyVal.dict [], PyVal.str "x"] : List PyVal)[i] :=
  batched_200_positional_zip 1 "oembed" ["a", "b"] [] (.str "k")
    ⟨"200", "", Option.some (.list [.dict [], .str "x"])⟩
    [.dict [], .str "x"] (by decide) (by decide) (by decide) (by decide)
    rfl rfl rfl

/-- Claim C4: the three input validations run before any network dispatch
and in a fixed order — empty input raises first (noUrls, whatever the key),
then the 20-URL batch limit, then the missing resolved key; in each failure
the request trace is empty, so no HTTP request is issued. -/
theorem validation_order_before_network
    (version : Nat) (method : String) (u : UrlOrUrls) (kwargs : Kwargs)
    (selfKey : PyVal) :
    (u.isTruthy = false →
      ∀ resp, _get version method u kwargs selfKey resp =
        ([], .error .noUrls)) ∧
    (∀ us, u = .multi us → us ≠ [] → 20 < us.length →
      ∀ resp, _get version method u kwargs selfKey resp =
        ([], .error (.tooManyUrls us.length))) ∧
    (u.isTruthy = true → (∀ us, u = .multi us → us.length ≤ 20) →
      (pyGet kwargs "key" selfKey).truthy = false →
      ∀ resp, _get version method u kwargs selfKey resp =
        ([], .error .noKey)) := by
  refine ⟨?_, ?_, ?_⟩
  · intro h resp
    unfold _get
    simp [h]
  · intro us hu hne hgt resp
    subst hu
    have h1 : (UrlOrUrls.multi us).isTruthy = true := by
      simp [UrlOrUrls.isTruthy, hne]
    unfold _get
    simp [h1, UrlOrUrls.isMulti, UrlOrUrls.listLen, hgt]
  · intro h1 h2 hkey resp
    have hm : (u.isMulti && decide (u.listLen > 20)) = false := by
      cases u with
      | single s => rfl
      | multi us =>
        have hle := h2 us rfl
        simp [UrlOrUrls.isMulti, UrlOrUrls.listLen]
        omega
    unfold _get
    simp [h1, hm, hkey]

/-- Witness for claim C4 at the three concrete failure inputs: the empty
string, a batch of twenty-one URLs, and a call with no key anywhere. -/
theorem validation_order_before_network_witness :
    _get 1 "oembed" (.single "") [] (.str "k") ⟨"200", "", Option.none⟩ =
      ([], .error .noUrls) ∧
    _get 1 "oembed" (.multi (List.replicate 21 "u")) [] (.str "k")
        ⟨"200", "", Option.none⟩ =
      ([], .error (.tooManyUrls 21)) ∧
    _get 1 "oembed" (.single "http://e.com") [] PyVal.none
        ⟨"200", "", Option.none⟩ =
      ([], .error .noKey) :=
  ⟨(validation_order_before_network 1 "oembed" (.single "") [] (.str "k")).1
      (by decide) _,
   (validation_order_before_network 1 "oembed" (.multi (List.replicate 21 "u"))
      [] (.str "k")).2.1 (List.replicate 21 "u") rfl (by decide) (by decide) _,
   (validation_order_before_network 1 "oembed" (.single "http://e.com") []
      PyVal.none).2.2 (by decide) (fun us h => UrlOrUrls.noConfusion h)
      (by decide) _⟩

/-- Claim C5: a single-URL call with a truthy key receiving a non-200
status returns one record whose data is the fixed error dict — type
"error", error true, error_code the integer conversion of the status — with
error_message looked up in the JSON-parsed body when the body parses to a
dict, and the Python None value (the spec's absent/undefined) when the body
does not parse at all, the parse failure being swallowed. -/
theorem single_error_normalization
    (version : Nat) (method : String) (u : String) (kwargs : Kwargs)
    (selfKey : PyVal) (resp : HttpResponse) (n : Int)
    (hu : u ≠ "") (hkey : (pyGet kwargs "key" selfKey).truthy = true)
    (hst : resp.status ≠ "200") (hn : pyIntOfStr resp.status = Option.some n) :
    (∀ kvs, resp.parsed = Option.some (.dict kvs) →
      (_get version method (.single u) kwargs selfKey resp).2 =
        .ok (.one ⟨.dict [("type", .str "error"), ("error", .bool true),
                          ("error_code", .int n),
                          ("error_message",
                            (kvs.lookup "error_message").getD .none)],
                   method, u⟩)) ∧
    (resp.parsed = Option.none →
      (_get version method (.single u) kwargs selfKey resp).2 =
        .ok (.one ⟨.dict [("type", .str "error"), ("error", .bool true),
                          ("error_code", .int n), ("error_message", .none)],
                   method, u⟩)) := by
  have h1 : (UrlOrUrls.single u).isTruthy = true := by
    simp [UrlOrUrls.isTruthy, hu]
  have h2 : ∀ us, UrlOrUrls.single u = UrlOrUrls.multi us → us.length ≤ 20 :=
    fun us h => UrlOrUrls.noConfusion h
  have hb : (resp.status == "200") = false := beq_eq_false_iff_ne.mpr hst
  constructor
  · intro kvs hkvs
    rw [_get_unfold_valid version method (.single u) kwargs selfKey resp h1 h2
      hkey]
    show handleResponse method (.single u) _ resp = _
    unfold handleResponse
    simp [hb, hn, hkvs, PyVal.dictGet, Except.bind, Except.map]
  · intro hnone
    rw [_get_unfold_valid version method (.single u) kwargs selfKey resp h1 h2
      hkey]
    show handleResponse method (.single u) _ resp = _
    unfold handleResponse
    simp [hb, hn, hnone, PyVal.dictGet, Except.bind, Except.map]

/-- Witness for claim C5: a 404 with a parseable error body carrying the
message, and a 500 with an unparseable body yielding error_message None. -/
theorem single_error_normalization_witness :
    (_get 1 "oembed" (.single "http://e.com/x") [] (.str "k")
        ⟨"404", "nf", Option.some (.dict [("error_message",
          .str "not found")])⟩).2 =
      .ok (.one ⟨.dict [("type", .str "error"), ("error", .bool true),
                        ("error_code", .int 404),
                        ("error_message", .str "not found")],
                 "oembed", "http://e.com/x"⟩) ∧
    (_get 1 "oembed" (.single "http://e.com/x") [] (.str "k")
        ⟨"500", "<html>", Option.none⟩).2 =
      .ok (.one ⟨.dict [("type", .str "error"), ("error", .bool true),
                        ("error_code", .int 500), ("error_message", .none)],
                 "oembed", "http://e.com/x"⟩) := by
  constructor
  · exact ((single_error_normalization 1 "oembed" "http://e.com/x" []
      (.str "k") ⟨"404", "nf", Option.some (.dict [("error_message",
        .str "not found")])⟩ 404 (by decide) (by decide) (by decide) rfl).1
      [("error_message", .str "not found")] rfl).trans rfl
  · exact (single_error_normalization 1 "oembed" "http://e.com/x" []
      (.str "k") ⟨"500", "<html>", Option.none⟩ 500 (by decide) (by decide)
      (by decide) rfl).2 rfl

/-- Claim C6: for each of the four public operations, the dispatched
request target is the spec-described composition — host, version (2 for
objectify, 1 otherwise), method, then the URL-encoded options with the
resolved key under "key", followed by the ampersand-joined urls parameter
(with trailing ampersand) for a batch or the url parameter for a single
string. -/
theorem request_target_format
    (u : UrlOrUrls) (kwargs : Kwargs) (selfKey : PyVal) (resp : HttpResponse)
    (h1 : u.isTruthy = true) (h2 : ∀ us, u = .multi us → us.length ≤ 20)
    (hkey : (pyGet kwargs "key" selfKey).truthy = true) :
    (oembed u kwargs selfKey resp).1 =
      [specRequestTarget 1 "oembed" u kwargs (pyGet kwargs "key" selfKey)] ∧
    (preview u kwargs selfKey resp).1 =
      [specRequestTarget 1 "preview" u kwargs (pyGet kwargs "key" selfKey)] ∧
    (objectify u kwargs selfKey resp).1 =
      [specRequestTarget 2 "objectify" u kwargs (pyGet kwargs "key" selfKey)] ∧
    (extract u kwargs selfKey resp).1 =
      [specRequestTarget 1 "extract" u kwargs (pyGet kwargs "key" selfKey)] := by
  refine ⟨?_, ?_, ?_, ?_⟩
  · show (_get 1 "oembed" u kwargs selfKey resp).1 = _
    rw [_get_unfold_valid 1 "oembed" u kwargs selfKey resp h1 h2 hkey]
  · show (_get 1 "preview" u kwargs selfKey resp).1 = _
    rw [_get_unfold_valid 1 "preview" u kwargs selfKey resp h1 h2 hkey]
  · show (_get 2 "objectify" u kwargs selfKey resp).1 = _
    rw [_get_unfold_valid 2 "objectify" u kwargs selfKey resp h1 h2 hkey]
  · show (_get 1 "extract" u kwargs selfKey resp).1 = _
    rw [_get_unfold_valid 1 "extract" u kwargs selfKey resp h1 h2 hkey]

/-- Witness for claim C6 on a concrete single-URL call with one extra
option, showing the four literal request targets. -/
theorem request_target_format_witness :
    (oembed (.single "http://x.com/a") [("maxwidth", .int 100)] (.str "k")
        ⟨"200", "", Option.none⟩).1 =
      ["http://api.embed.ly/1/oembed?maxwidth=100&key=k&url=http%3A//x.com/a"] ∧
    (preview (.single "http://x.com/a") [("maxwidth", .int 100)] (.str "k")
        ⟨"200", "", Option.none⟩).1 =
      ["http://api.embed.ly/1/preview?maxwidth=100&key=k&url=http%3A//x.com/a"] ∧
    (objectify (.single "http://x.com/a") [("maxwidth", .int 100)] (.str "k")
        ⟨"200", "", Option.none⟩).1 =
      ["http://api.embed.ly/2/objectify?maxwidth=100&key=k&url=http%3A//x.com/a"] ∧
    (extract (.single "http://x.com/a") [("maxwidth", .int 100)] (.str "k")
        ⟨"200", "", Option.none⟩).1 =
      ["http://api.embed.ly/1/extract?maxwidth=100&key=k&url=http%3A//x.com/a"] := by
  have h := request_target_format (.single "http://x.com/a")
    [("maxwidth", .int 100)] (.str "k") ⟨"200", "", Option.none⟩
    (by decide) (fun us hx => UrlOrUrls.noConfusion hx) (by decide)
  exact ⟨h.1.trans rfl, h.2.1.trans rfl, h.2.2.1.trans rfl, h.2.2.2.trans rfl⟩

end Embedly
